import Mathlib

/-!
# secrets-manager: a shallow embedding of `secrets.go`

The Go program reads a manifest of cloud service instances, resolves resource
groups and instances, fetches service keys, transforms the credentials and
writes Kubernetes Secret documents.  This file embeds the functions of
`secrets.go` as Lean definitions and proves properties about them.

Modelling conventions:

* a Go `string` is a Lean `String` (the strings handled here come out of a JSON
  decoder, hence are valid UTF-8);
* a Go `map[string]T` is an association list `List (String × T)`; a lookup takes
  the first binding of the key, a missing key yields Go's zero value;
* `interface{}` values decoded from JSON are values of the type `JSON`;
* a run-time panic (failed type assertion, index out of range, call of a nil
  function) is `Except.error` with the panic message; an exit through
  `log.Fatal` is `Except.error` as well, or, where the state at the exit
  matters (`fetchInstances`), a field of the state;
* the remote lookup services are parameters (functions from the request to the
  response); the calls a function issues are recorded in a trace.
-/

namespace SecretsManager

/-! ## Generic Go values -/

/-- Values of type `interface{}` as produced by `encoding/json`: `nil`, `bool`,
`float64` (kept as a rational, never inspected by the program), `string`,
`[]interface{}` and `map[string]interface{}`. -/
inductive JSON where
  | null : JSON
  | bool (b : Bool) : JSON
  | num (q : Rat) : JSON
  | str (s : String) : JSON
  | arr (xs : List JSON) : JSON
  | obj (kvs : List (String × JSON)) : JSON

/-- A Go `map[string]interface{}`. -/
abbrev Bundle := List (String × JSON)

/-- Go map indexing `m[k]` on a `map[string]interface{}`: the bound value, or
the zero value `nil` when the key is missing (also for a nil map). -/
def mapIndex (m : Bundle) (k : String) : JSON :=
  match m.lookup k with
  | some v => v
  | none => JSON.null

/-- Type assertion `v.(string)`; panics on any other dynamic type. -/
def assertString (v : JSON) : Except String String :=
  match v with
  | JSON.str s => Except.ok s
  | _ => Except.error "panic: interface conversion: interface {} is not string"

/-- Type assertion `v.(map[string]interface{})`. -/
def assertMap (v : JSON) : Except String Bundle :=
  match v with
  | JSON.obj kvs => Except.ok kvs
  | _ => Except.error "panic: interface conversion: interface {} is not map[string]interface {}"

/-- Type assertion `v.([]interface{})`. -/
def assertSlice (v : JSON) : Except String (List JSON) :=
  match v with
  | JSON.arr xs => Except.ok xs
  | _ => Except.error "panic: interface conversion: interface {} is not []interface {}"

/-- Slice indexing `xs[i]`; panics when `i` is out of range. -/
def sliceIndex (xs : List JSON) (i : Nat) : Except String JSON :=
  match xs.get? i with
  | some v => Except.ok v
  | none => Except.error "panic: runtime error: index out of range"

/-! ## `strings.TrimRight` -/

/-- Go `strings.TrimRight(s, cutset)`: `s` with all trailing code points that
are contained in `cutset` removed. -/
def trimRight (s : String) (cutset : String) : String :=
  String.mk (s.data.reverse.dropWhile (fun c => cutset.data.contains c)).reverse

/-! ## `encoding/base64` -/

/-- The alphabet of `base64.StdEncoding`. -/
def encodeStd : List Char :=
  "ABCDEFGHIJKLMNOPQRSTUVWXYZabcdefghijklmnopqrstuvwxyz0123456789+/".data

/-- The character for a 6-bit value. -/
def b64Char (n : Nat) : Char := encodeStd.getD (n % 64) 'A'

/-- Go `(*Encoding).Encode` for `StdEncoding`: three bytes become four
characters; a remainder of one or two bytes is padded with `=`. -/
def b64Encode : List Nat → List Char
  | [] => []
  | [a] => [b64Char (a / 4), b64Char ((a % 4) * 16), '=', '=']
  | [a, b] => [b64Char (a / 4), b64Char ((a % 4) * 16 + b / 16), b64Char ((b % 16) * 4), '=']
  | a :: b :: c :: rest =>
    b64Char (a / 4) :: b64Char ((a % 4) * 16 + b / 16) ::
      b64Char ((b % 16) * 4 + c / 64) :: b64Char (c % 64) :: b64Encode rest

/-- The UTF-8 bytes of one code point. -/
def utf8Bytes (c : Char) : List Nat :=
  let n := c.toNat
  if n < 128 then [n]
  else if n < 2048 then [192 + n / 64, 128 + n % 64]
  else if n < 65536 then [224 + n / 4096, 128 + (n / 64) % 64, 128 + n % 64]
  else [240 + n / 262144, 128 + (n / 4096) % 64, 128 + (n / 64) % 64, 128 + n % 64]

/-- Go conversion `[]byte(s)`. -/
def stringBytes (s : String) : List Nat := s.data.flatMap utf8Bytes

/-- Go `tob64`: `base64.StdEncoding.EncodeToString([]byte(data))`. -/
def tob64 (data : String) : String := String.mk (b64Encode (stringBytes data))

/-! ## Configuration and documents -/

/-- Go `Config`. -/
structure Config where
  tob64 : Bool
  namespace_ : String
  inputFile : String
  outputDir : String
  apiKey : String
  outputSuffix : String
  parser : String
  deriving DecidableEq, Repr

/-- The value of a transformer: a Go `map[string]interface{}` all of whose
values are strings, in the order of the map literal. -/
abbrev SecretData := List (String × String)

/-! ## Credential transformers -/

/-- Go `cloudantParser`. -/
def cloudantParser (creds : Bundle) (_creds2 : Bundle) (cfg : Config) :
    Except String SecretData := do
  let pass ← assertString (mapIndex creds "password")
  let user ← assertString (mapIndex creds "username")
  let host ← assertString (mapIndex creds "host")
  let url := "https://" ++ host
  let (pass, user, url) :=
    if cfg.tob64 then (tob64 pass, tob64 user, tob64 url) else (pass, user, url)
  return [("cloudant_username", user), ("cloudant_password", pass), ("cloudant_url", url)]

/-- The loop of `kafkaParser` collecting the broker strings. -/
def collectBrokers : List JSON → List String → Except String (List String)
  | [], brk => Except.ok brk
  | v :: rest, brk => do
    let s ← assertString v
    collectBrokers rest (brk ++ [s])

/-- Go `kafkaParser`.  The broker list is extracted (and may panic) but is not
part of the returned mapping. -/
def kafkaParser (creds : Bundle) (_creds2 : Bundle) (cfg : Config) :
    Except String SecretData := do
  let pass ← assertString (mapIndex creds "password")
  let user ← assertString (mapIndex creds "user")
  let (pass, user) := if cfg.tob64 then (tob64 pass, tob64 user) else (pass, user)
  let brokers ← assertSlice (mapIndex creds "kafka_brokers_sasl")
  let _brk ← collectBrokers brokers []
  return [("kafkaSaslUsername", user), ("kafkaSaslPassword", pass)]

/-- Go `redisParser`. -/
def redisParser (creds : Bundle) (_creds2 : Bundle) (cfg : Config) :
    Except String SecretData := do
  let connection ← assertMap (mapIndex creds "connection")
  let cli ← assertMap (mapIndex connection "cli")
  let args ← assertSlice (mapIndex cli "arguments")
  let certs ← assertMap (mapIndex cli "certificate")
  let certBase64 ← assertString (mapIndex certs "certificate_base64")
  let arg0 ← sliceIndex args 0
  let arg0 ← assertSlice arg0
  let arg01 ← sliceIndex arg0 1
  let raw ← assertString arg01
  let url := trimRight raw "/0"
  let (url, certBase64) :=
    if cfg.tob64 then (tob64 url, tob64 certBase64) else (url, certBase64)
  return [("redis_url", url), ("redis_cert", certBase64)]

/-! ## The parser table and the secret writer -/

/-- The type of a registered transformer. -/
abbrev ParserFn := Bundle → Bundle → Config → Except String SecretData

/-- Go package variable `parser`: the transformers registered per parser group
and service type. -/
def parser : List (String × List (String × ParserFn)) :=
  [("compliance", [("redis", redisParser), ("cloudant", cloudantParser)])]

/-- Go `tbl[group][credsType]` on the nested map: a missing group yields a nil
inner map, a missing service type yields a nil function (`none`). -/
def lookupParser (tbl : List (String × List (String × ParserFn)))
    (group credsType : String) : Option ParserFn :=
  match tbl.lookup group with
  | some inner => inner.lookup credsType
  | none => none

/-- Go `Metadata`. -/
structure Metadata where
  Name : String
  Namespace : String
  deriving DecidableEq, Repr

/-- Go `K8sSecret`. -/
structure K8sSecret where
  APIVersion : String
  Kind : String
  Metadata : Metadata
  Data : SecretData
  deriving DecidableEq, Repr

/-- The part of the process environment `composeSecrets` acts on: the lines
printed to standard output, the files on disk (path and the document whose
`json.MarshalIndent` rendering is the file's content), and whether
`ioutil.WriteFile` succeeds for a path (the program discards its error). -/
structure World where
  stdout : List String
  files : List (String × K8sSecret)
  writable : String → Bool

/-- Go `ioutil.WriteFile(path, ...)` with the error discarded: on success the
file at `path` is created or overwritten, on failure nothing changes. -/
def writeFile (w : World) (path : String) (doc : K8sSecret) : World :=
  if w.writable path then
    { w with files := (path, doc) :: w.files.filter (fun f => f.1 != path) }
  else w

/-- The body of Go `composeSecrets`, for a given parser table. -/
def composeSecretsWith (tbl : List (String × List (String × ParserFn)))
    (credsType : String) (public_ private_ : Bundle) (output : String)
    (cfg : Config) (w : World) : Except String World :=
  if public_.length == 0 && private_.length == 0 then
    Except.ok w
  else
    let w1 := { w with stdout := w.stdout ++
      ["Processing " ++ credsType ++ " for output " ++ output ++ cfg.outputSuffix ++ "\n"] }
    match lookupParser tbl cfg.parser credsType with
    | none => Except.error "panic: runtime error: invalid memory address or nil pointer dereference"
    | some f =>
      match f public_ private_ cfg with
      | Except.error e => Except.error e
      | Except.ok data =>
        let secret : K8sSecret :=
          { APIVersion := "v1", Kind := "Secret",
            Metadata := { Name := output, Namespace := cfg.namespace_ },
            Data := data }
        Except.ok (writeFile w1 (cfg.outputDir ++ "/" ++ output ++ cfg.outputSuffix) secret)

/-- Go `composeSecrets`: the body above on the package variable `parser`. -/
def composeSecrets (credsType : String) (public_ private_ : Bundle) (output : String)
    (cfg : Config) (w : World) : Except String World :=
  composeSecretsWith parser credsType public_ private_ output cfg w

/-! ## Manifest model -/

/-- Go `Credentials`. -/
structure Credentials where
  Output : String
  ResourceGroup : String
  Name : String
  PublicKeyName : String
  PrivateKeyName : String
  ResourceInstanceID : String
  deriving DecidableEq, Repr

/-- Go `RegionalDetails`. -/
structure RegionalDetails where
  Redis : List Credentials
  Kafka : List Credentials
  Cloudant : List Credentials
  deriving DecidableEq, Repr

/-! ## Key fetcher -/

/-- The fields of `models.ServiceKey` the program reads: `SourceCrn` holds the
rendering `SourceCrn.String()`, `Credentials` the credential bundle. -/
structure ServiceKey where
  SourceCrn : String
  Credentials : Bundle

/-- The zero value `models.ServiceKey{}`: a nil credentials map; the zero CRN
renders as its nine separators. -/
def ServiceKey.zero : ServiceKey := { SourceCrn := ":::::::::", Credentials := [] }

/-- The selection loop of `fetchKeyHelper`: the first record whose source CRN
equals the instance ID replaces the current value and ends the loop. -/
def selectKey (id : String) : List ServiceKey → ServiceKey → ServiceKey
  | [], cur => cur
  | pkey :: rest, cur => if pkey.SourceCrn == id then pkey else selectKey id rest cur

/-- What `fetchKeyHelper` does: the `GetKeys` calls it issues, in order, and
either the two selected keys or the error passed to `log.Fatal`. -/
structure KeyFetch where
  calls : List String
  result : Except String (ServiceKey × ServiceKey)

/-- Go `fetchKeyHelper`, over the response function of `rsAPI.GetKeys`. -/
def fetchKeyHelper (R : Credentials) (getKeys : String → Except String (List ServiceKey)) :
    KeyFetch :=
  let first : KeyFetch :=
    if R.PublicKeyName != "" then
      match getKeys R.PublicKeyName with
      | Except.error e => { calls := [R.PublicKeyName], result := Except.error e }
      | Except.ok pub =>
        { calls := [R.PublicKeyName],
          result := Except.ok (selectKey R.ResourceInstanceID pub ServiceKey.zero, ServiceKey.zero) }
    else { calls := [], result := Except.ok (ServiceKey.zero, ServiceKey.zero) }
  match first.result with
  | Except.error e => { calls := first.calls, result := Except.error e }
  | Except.ok (publicCreds, privateCreds) =>
    if R.PrivateKeyName != "" then
      match getKeys R.PrivateKeyName with
      | Except.error e => { calls := first.calls ++ [R.PrivateKeyName], result := Except.error e }
      | Except.ok priv =>
        { calls := first.calls ++ [R.PrivateKeyName],
          result := Except.ok (publicCreds, selectKey R.ResourceInstanceID priv privateCreds) }
    else { calls := first.calls, result := Except.ok (publicCreds, privateCreds) }

/-! ## Instance resolution -/

/-- The fields of `models.ServiceInstance` the program reads: `Crn` holds the
rendering `Crn.String()`. -/
structure ServiceInstance where
  Crn : String
  RegionID : String
  deriving DecidableEq, Repr

/-- The fields of `controller.ServiceInstanceQuery` the program sets. -/
structure ServiceInstanceQuery where
  Name : String
  ResourceGroupID : String
  deriving DecidableEq, Repr

/-- Go indexing `m[k]` on a `map[string]string`; a missing key yields `""`. -/
def mapGet (m : List (String × String)) (k : String) : String :=
  match m.lookup k with
  | some v => v
  | none => ""

/-- Go assignment `m[k] = v` on a `map[string]string`. -/
def mapSet : List (String × String) → String → String → List (String × String)
  | [], k, v => [(k, v)]
  | (k1, v1) :: rest, k, v => if k1 == k then (k, v) :: rest else (k1, v1) :: mapSet rest k v

/-- The inner loop of `fetchInstances`: every instance of the target region
assigns its CRN to the instance ID; the loop runs to the end of the list. -/
def selectInstance (region : String) : List ServiceInstance → String → String
  | [], id => id
  | s :: rest, id => selectInstance region rest (if region == s.RegionID then s.Crn else id)

/-- The state `fetchInstances` acts on: the caller's slice, the `ListInstances`
calls issued so far (each with the index of the request it was issued for),
standard output, and the error passed to `log.Fatal` if the run was aborted. -/
structure InstState where
  credentials : List Credentials
  calls : List (Nat × ServiceInstanceQuery)
  stdout : List String
  fatal : Option String

/-- The outer loop of `fetchInstances` from index `i` on, `rest` being the
requests still to visit. -/
def fetchInstancesFrom (resourceGroups : List (String × String))
    (listInstances : ServiceInstanceQuery → Except String (List ServiceInstance))
    (region : String) : Nat → List Credentials → InstState → InstState
  | _, [], st => st
  | i, R :: rest, st =>
    if R.ResourceInstanceID != "" then
      fetchInstancesFrom resourceGroups listInstances region (i + 1) rest st
    else
      let rsInstQuery : ServiceInstanceQuery :=
        { Name := R.Name, ResourceGroupID := mapGet resourceGroups R.ResourceGroup }
      match listInstances rsInstQuery with
      | Except.error e =>
        { st with calls := st.calls ++ [(i, rsInstQuery)], fatal := some e }
      | Except.ok instances =>
        let R1 : Credentials :=
          { R with ResourceInstanceID := selectInstance region instances R.ResourceInstanceID }
        let out :=
          if R1.ResourceInstanceID == "" then
            st.stdout ++ ["The resource " ++ R1.Name ++
              " doesn't exists in the given resource group: " ++ R1.ResourceGroup ++ "\n"]
          else st.stdout
        fetchInstancesFrom resourceGroups listInstances region (i + 1) rest
          { credentials := st.credentials.set i R1,
            calls := st.calls ++ [(i, rsInstQuery)],
            stdout := out,
            fatal := st.fatal }

/-- Go `fetchInstances`. -/
def fetchInstances (credentials : List Credentials) (resourceGroups : List (String × String))
    (listInstances : ServiceInstanceQuery → Except String (List ServiceInstance))
    (region : String) : InstState :=
  fetchInstancesFrom resourceGroups listInstances region 0 credentials
    { credentials := credentials, calls := [], stdout := [], fatal := none }

/-! ## Resource-group resolution (in `main`) -/

/-- The field of `models.ResourceGroupv2` the program reads. -/
structure ResourceGroup where
  ID : String
  deriving DecidableEq, Repr

/-- The three loops of `main` that enter every referenced resource-group name
into the `resourceGroups` map with an empty ID. -/
def collectGroups (rData : RegionalDetails) : List (String × String) :=
  let m := rData.Redis.foldl (fun m s => mapSet m s.ResourceGroup "") []
  let m := rData.Kafka.foldl (fun m s => mapSet m s.ResourceGroup "") m
  rData.Cloudant.foldl (fun m s => mapSet m s.ResourceGroup "") m

/-- The loop `for k := range resourceGroups` of `main`, visiting the keys in
the order `keys` (Go leaves the order of a map range unspecified).
`findByName` gives the response of `resGrpAPI.FindByName` for a name: the
groups found and the error, if any.  The state is the map and standard output. -/
def resolveGroups (findByName : String → List ResourceGroup × Option String) :
    List String → List (String × String) × List String →
    Except String (List (String × String) × List String)
  | [], st => Except.ok st
  | k :: ks, (resourceGroups, out) =>
    let (g, err) := findByName k
    let out1 :=
      match err with
      | some e => out ++ ["Error retrieving resource group " ++ k ++ " : " ++ e]
      | none => out
    match g with
    | [] => Except.error "panic: runtime error: index out of range [0] with length 0"
    | g0 :: _ => resolveGroups findByName ks (mapSet resourceGroups k g0.ID, out1)

/-! ## Example inputs -/

/-- A well-formed redis credential bundle with the given URL and certificate. -/
def redisBundle (url cert : String) : Bundle :=
  [("connection", JSON.obj [("cli", JSON.obj [
      ("arguments", JSON.arr [JSON.arr [JSON.str "-u", JSON.str url]]),
      ("certificate", JSON.obj [("certificate_base64", JSON.str cert)])])])]

/-- A well-formed kafka credential bundle. -/
def kafkaBundle (user password : String) (brokers : List String) : Bundle :=
  [("user", JSON.str user), ("password", JSON.str password),
   ("kafka_brokers_sasl", JSON.arr (brokers.map JSON.str))]

/-- The configuration of a run with the default flags, namespace `ns`. -/
def defaultConfig (encodeBase64 : Bool) : Config :=
  { tob64 := encodeBase64, namespace_ := "ns", inputFile := "input.json", outputDir := ".",
    apiKey := "key", outputSuffix := ".json", parser := "compliance" }

/-- A world with nothing printed, no files, and every path writable. -/
def emptyWorld : World := { stdout := [], files := [], writable := fun _ => true }

/-- The reading of "strip exactly one trailing occurrence of `/0`": the URL
without its last two characters when it ends with `/0`, unchanged otherwise. -/
def stripOneSuffix (url : String) : String :=
  if "/0".data.isSuffixOf url.data then String.mk (url.data.take (url.data.length - 2)) else url

/-- The example records used below: two keys of instance `crn:a`, one of `crn:b`. -/
def exampleKeys : List ServiceKey :=
  [ { SourceCrn := "crn:b", Credentials := [("user", JSON.str "b")] },
    { SourceCrn := "crn:a", Credentials := [("user", JSON.str "a1")] },
    { SourceCrn := "crn:a", Credentials := [("user", JSON.str "a2")] } ]

/-- A key service knowing the single key name `pub-key` (with `exampleKeys`);
any other name is an error of the lookup. -/
def exampleGetKeys (name : String) : Except String (List ServiceKey) :=
  if name == "pub-key" then Except.ok exampleKeys else Except.error "key not found"

/-- The request used below: no instance was resolved (empty
`resource_instance_id`), the public key name is the given one. -/
def unresolvedRequest (publicKeyName : String) : Credentials :=
  { Output := "o", ResourceGroup := "g", Name := "n", PublicKeyName := publicKeyName,
    PrivateKeyName := "", ResourceInstanceID := "" }

/-- A manifest referencing the groups `unknown` and `default`. -/
def exampleData : RegionalDetails :=
  { Redis := [{ Output := "r", ResourceGroup := "unknown", Name := "redis-1",
                PublicKeyName := "k", PrivateKeyName := "", ResourceInstanceID := "" }],
    Kafka := [],
    Cloudant := [{ Output := "c", ResourceGroup := "default", Name := "cloudant-1",
                   PublicKeyName := "k", PrivateKeyName := "", ResourceInstanceID := "" }] }

/-- A resource-group service in which only the group `default` exists; for any
other name it returns no group and an error. -/
def exampleFindByName (name : String) : List ResourceGroup × Option String :=
  if name == "default" then ([{ ID := "id-default" }], none)
  else ([], some "Given resource Group doesn't exist")

/-- Two requests: the first carries an explicit instance ID, the second is to
be resolved by name. -/
def exampleRequests : List Credentials :=
  [ { Output := "o1", ResourceGroup := "default", Name := "redis-1", PublicKeyName := "k",
      PrivateKeyName := "", ResourceInstanceID := "crn:explicit" },
    { Output := "o2", ResourceGroup := "default", Name := "redis-2", PublicKeyName := "k",
      PrivateKeyName := "", ResourceInstanceID := "" } ]

/-- The instances returned for every query: one in `eu-de`, two in `us-south`. -/
def exampleInstances : List ServiceInstance :=
  [ { Crn := "crn:eu", RegionID := "eu-de" },
    { Crn := "crn:first", RegionID := "us-south" },
    { Crn := "crn:second", RegionID := "us-south" } ]

/-- An instance service answering every query with `exampleInstances`. -/
def exampleListInstances (_q : ServiceInstanceQuery) : Except String (List ServiceInstance) :=
  Except.ok exampleInstances

/-! ## Relating a request to its resolved entry -/

/-- How one request relates to its entry after `fetchInstances` ran; `aborted`
tells whether the run ended in `log.Fatal`. -/
def Resolved (rg : List (String × String))
    (api : ServiceInstanceQuery → Except String (List ServiceInstance)) (region : String)
    (aborted : Prop) (R R1 : Credentials) : Prop :=
  (R.ResourceInstanceID ≠ "" → R1 = R)
    ∧ { R1 with ResourceInstanceID := R.ResourceInstanceID } = R
    ∧ (R.ResourceInstanceID = "" → ¬ aborted →
        ∃ instances, api { Name := R.Name, ResourceGroupID := mapGet rg R.ResourceGroup }
            = Except.ok instances
          ∧ R1 = { R with ResourceInstanceID := selectInstance region instances "" })

/-! ## Lemmas on the transformers -/

theorem redisParser_flag (creds creds2 : Bundle) (cfg : Config) (d : SecretData)
    (h : redisParser creds creds2 { cfg with tob64 := false } = Except.ok d) :
    redisParser creds creds2 { cfg with tob64 := true }
      = Except.ok (d.map (fun kv => (kv.1, tob64 kv.2))) := by
  unfold redisParser at h ⊢
  cases h1 : assertMap (mapIndex creds "connection") with
  | error e => simp [h1, bind, Except.bind] at h
  | ok connection =>
    cases h2 : assertMap (mapIndex connection "cli") with
    | error e => simp [h1, h2, bind, Except.bind] at h
    | ok cli =>
      cases h3 : assertSlice (mapIndex cli "arguments") with
      | error e => simp [h1, h2, h3, bind, Except.bind] at h
      | ok args =>
        cases h4 : assertMap (mapIndex cli "certificate") with
        | error e => simp [h1, h2, h3, h4, bind, Except.bind] at h
        | ok certs =>
          cases h5 : assertString (mapIndex certs "certificate_base64") with
          | error e => simp [h1, h2, h3, h4, h5, bind, Except.bind] at h
          | ok certBase64 =>
            cases h6 : sliceIndex args 0 with
            | error e => simp [h1, h2, h3, h4, h5, h6, bind, Except.bind] at h
            | ok a0 =>
              cases h7 : assertSlice a0 with
              | error e => simp [h1, h2, h3, h4, h5, h6, h7, bind, Except.bind] at h
              | ok a0s =>
                cases h8 : sliceIndex a0s 1 with
                | error e => simp [h1, h2, h3, h4, h5, h6, h7, h8, bind, Except.bind] at h
                | ok a01 =>
                  cases h9 : assertString a01 with
                  | error e =>
                    simp [h1, h2, h3, h4, h5, h6, h7, h8, h9, bind, Except.bind] at h
                  | ok raw =>
                    simp [h1, h2, h3, h4, h5, h6, h7, h8, h9, bind, Except.bind, pure,
                      Except.pure] at h ⊢
                    subst h
                    simp

theorem kafkaParser_flag (creds creds2 : Bundle) (cfg : Config) (d : SecretData)
    (h : kafkaParser creds creds2 { cfg with tob64 := false } = Except.ok d) :
    kafkaParser creds creds2 { cfg with tob64 := true }
      = Except.ok (d.map (fun kv => (kv.1, tob64 kv.2))) := by
  unfold kafkaParser at h ⊢
  cases h1 : assertString (mapIndex creds "password") with
  | error e => simp [h1, bind, Except.bind] at h
  | ok pass =>
    cases h2 : assertString (mapIndex creds "user") with
    | error e => simp [h1, h2, bind, Except.bind] at h
    | ok user =>
      cases h3 : assertSlice (mapIndex creds "kafka_brokers_sasl") with
      | error e => simp [h1, h2, h3, bind, Except.bind] at h
      | ok brokers =>
        cases h4 : collectBrokers brokers [] with
        | error e => simp [h1, h2, h3, h4, bind, Except.bind] at h
        | ok brk =>
          simp [h1, h2, h3, h4, bind, Except.bind, pure, Except.pure] at h ⊢
          subst h
          simp

theorem cloudantParser_flag (creds creds2 : Bundle) (cfg : Config) (d : SecretData)
    (h : cloudantParser creds creds2 { cfg with tob64 := false } = Except.ok d) :
    cloudantParser creds creds2 { cfg with tob64 := true }
      = Except.ok (d.map (fun kv => (kv.1, tob64 kv.2))) := by
  unfold cloudantParser at h ⊢
  cases h1 : assertString (mapIndex creds "password") with
  | error e => simp [h1, bind, Except.bind] at h
  | ok pass =>
    cases h2 : assertString (mapIndex creds "username") with
    | error e => simp [h1, h2, bind, Except.bind] at h
    | ok user =>
      cases h3 : assertString (mapIndex creds "host") with
      | error e => simp [h1, h2, h3, bind, Except.bind] at h
      | ok host =>
        simp [h1, h2, h3, bind, Except.bind, pure, Except.pure] at h ⊢
        subst h
        simp

/-- C1 (evaluation at the failing input): for the well-formed bundle with URL
`rediss://x:y@host:6380/0` and `encodeBase64 = false`, `redisParser` emits
`rediss://x:y@host:638` as `redis_url`: `strings.TrimRight` with the cutset `/0`
also removes the final `0` of the port, whereas removing one trailing `/0` gives
`rediss://x:y@host:6380`. -/
theorem redisParser_trims_cutset_not_suffix :
    redisParser (redisBundle "rediss://x:y@host:6380/0" "Q0VSVA==") [] (defaultConfig false)
        = Except.ok [("redis_url", "rediss://x:y@host:638"), ("redis_cert", "Q0VSVA==")]
      ∧ stripOneSuffix "rediss://x:y@host:6380/0" = "rediss://x:y@host:6380"
      ∧ trimRight "rediss://x:y@host:6380/0" "/0" ≠ stripOneSuffix "rediss://x:y@host:6380/0"
      ∧ trimRight "redis://h:6380" "/0" = "redis://h:638"
      ∧ trimRight "redis://h:6379/0/0" "/0" = "redis://h:6379" := by
  refine ⟨rfl, by decide, by decide, by decide, by decide⟩

/-- C2: for each of the three transformers and every bundle on which it
succeeds with `encodeBase64 = false`, the run with `encodeBase64 = true`
succeeds as well and its output is the output of the former with every value
replaced by its `tob64` encoding, key by key in the same order (hence the same
keys). -/
theorem parsers_tob64_fieldwise (f : ParserFn)
    (hf : f = redisParser ∨ f = kafkaParser ∨ f = cloudantParser)
    (creds creds2 : Bundle) (cfg : Config) (d : SecretData)
    (h : f creds creds2 { cfg with tob64 := false } = Except.ok d) :
    f creds creds2 { cfg with tob64 := true }
        = Except.ok (d.map (fun kv => (kv.1, tob64 kv.2)))
      ∧ (d.map (fun kv => (kv.1, tob64 kv.2))).map Prod.fst = d.map Prod.fst := by
  refine ⟨?_, by simp [List.map_map, Function.comp_def]⟩
  rcases hf with rfl | rfl | rfl
  · exact redisParser_flag creds creds2 cfg d h
  · exact kafkaParser_flag creds creds2 cfg d h
  · exact cloudantParser_flag creds creds2 cfg d h

/-- C2, at the redis bundle with URL `rediss://x:y@host:6379/0`. -/
theorem parsers_tob64_fieldwise_witness :
    redisParser (redisBundle "rediss://x:y@host:6379/0" "Q0VSVA==") []
        { defaultConfig false with tob64 := false }
        = Except.ok [("redis_url", "rediss://x:y@host:6379"), ("redis_cert", "Q0VSVA==")]
      ∧ redisParser (redisBundle "rediss://x:y@host:6379/0" "Q0VSVA==") []
        { defaultConfig false with tob64 := true }
        = Except.ok ([("redis_url", "rediss://x:y@host:6379"), ("redis_cert", "Q0VSVA==")].map
            (fun kv => (kv.1, tob64 kv.2))) :=
  ⟨rfl, (parsers_tob64_fieldwise redisParser (Or.inl rfl)
    (redisBundle "rediss://x:y@host:6379/0" "Q0VSVA==") [] (defaultConfig false) _ rfl).1⟩

/-- C3 (evaluation at the failing input): the table `parser` registers no
transformer for service type `kafka` in the group `compliance`, so for a
well-formed non-empty kafka bundle `composeSecrets` calls a nil function and
panics instead of producing the data `kafkaParser` computes for that bundle. -/
theorem composeSecrets_kafka_unregistered :
    (lookupParser parser "compliance" "kafka").isNone = true
      ∧ composeSecrets "kafka" (kafkaBundle "u" "p" ["broker-0:9093"]) [] "kafka-out"
          (defaultConfig false) emptyWorld
        = Except.error "panic: runtime error: invalid memory address or nil pointer dereference"
      ∧ kafkaParser (kafkaBundle "u" "p" ["broker-0:9093"]) [] (defaultConfig false)
        = Except.ok [("kafkaSaslUsername", "u"), ("kafkaSaslPassword", "p")] :=
  ⟨rfl, rfl, rfl⟩

/-- C7: whatever the service type, output name, configuration, world and
parser table, `composeSecrets` on two empty bundles returns normally with the
world (files and standard output) unchanged; as this holds for every table,
also one without an entry or whose transformers all panic, no transformer is
invoked. -/
theorem composeSecrets_empty_bundles (credsType output : String) (cfg : Config) (w : World) :
    composeSecrets credsType [] [] output cfg w = Except.ok w
      ∧ ∀ tbl, composeSecretsWith tbl credsType [] [] output cfg w = Except.ok w :=
  ⟨rfl, fun _ => rfl⟩

theorem selectKey_eq_find (id : String) (recs : List ServiceKey) (cur : ServiceKey) :
    selectKey id recs cur
      = match recs.find? (fun k => k.SourceCrn == id) with
        | some k => k
        | none => cur := by
  induction recs with
  | nil => rfl
  | cons k rest ih =>
    by_cases hk : (k.SourceCrn == id) = true
    · simp [selectKey, List.find?, hk]
    · have hk1 : (k.SourceCrn == id) = false := by simpa using hk
      simp only [selectKey, List.find?, hk1, ih]
      simp

theorem selectKey_no_match (id : String) (recs : List ServiceKey) (cur : ServiceKey)
    (h : ∀ k ∈ recs, k.SourceCrn ≠ id) : selectKey id recs cur = cur := by
  induction recs with
  | nil => rfl
  | cons k rest ih =>
    have hk : (k.SourceCrn == id) = false := by simpa using h k (List.mem_cons_self _ _)
    simp only [selectKey, hk]
    exact ih (fun k1 hk1 => h k1 (List.mem_cons_of_mem _ hk1))

/-- C9: when the lookups for the configured key names succeed, `fetchKeyHelper`
returns normally; the public bundle is the credentials of the first record of
the public lookup whose source CRN string equals the request's
`resource_instance_id`, and is empty when there is none or `public_key_name` is
unset; the private bundle is determined in the same way by the private lookup
alone. -/
theorem fetchKeyHelper_selects_first_match (R : Credentials)
    (getKeys : String → Except String (List ServiceKey)) (pubRecs privRecs : List ServiceKey)
    (hpub : R.PublicKeyName ≠ "" → getKeys R.PublicKeyName = Except.ok pubRecs)
    (hpriv : R.PrivateKeyName ≠ "" → getKeys R.PrivateKeyName = Except.ok privRecs) :
    ∃ pk sk, (fetchKeyHelper R getKeys).result = Except.ok (pk, sk)
      ∧ pk.Credentials
        = (if R.PublicKeyName = "" then []
           else match pubRecs.find? (fun k => k.SourceCrn == R.ResourceInstanceID) with
             | some k => k.Credentials
             | none => [])
      ∧ sk.Credentials
        = (if R.PrivateKeyName = "" then []
           else match privRecs.find? (fun k => k.SourceCrn == R.ResourceInstanceID) with
             | some k => k.Credentials
             | none => []) := by
  by_cases h1 : R.PublicKeyName = "" <;> by_cases h2 : R.PrivateKeyName = ""
  · exact ⟨ServiceKey.zero, ServiceKey.zero, by simp [fetchKeyHelper, h1, h2],
      by simp [h1, ServiceKey.zero], by simp [h2, ServiceKey.zero]⟩
  · refine ⟨ServiceKey.zero, selectKey R.ResourceInstanceID privRecs ServiceKey.zero,
      by simp [fetchKeyHelper, h1, h2, hpriv h2], by simp [h1, ServiceKey.zero], ?_⟩
    rw [selectKey_eq_find]
    cases privRecs.find? (fun k => k.SourceCrn == R.ResourceInstanceID) <;>
      simp [h2, ServiceKey.zero]
  · refine ⟨selectKey R.ResourceInstanceID pubRecs ServiceKey.zero, ServiceKey.zero,
      by simp [fetchKeyHelper, h1, h2, hpub h1], ?_, by simp [h2, ServiceKey.zero]⟩
    rw [selectKey_eq_find]
    cases pubRecs.find? (fun k => k.SourceCrn == R.ResourceInstanceID) <;>
      simp [h1, ServiceKey.zero]
  · refine ⟨selectKey R.ResourceInstanceID pubRecs ServiceKey.zero,
      selectKey R.ResourceInstanceID privRecs ServiceKey.zero,
      by simp [fetchKeyHelper, h1, h2, hpub h1, hpriv h2], ?_, ?_⟩
    · rw [selectKey_eq_find]
      cases pubRecs.find? (fun k => k.SourceCrn == R.ResourceInstanceID) <;>
        simp [h1, ServiceKey.zero]
    · rw [selectKey_eq_find]
      cases privRecs.find? (fun k => k.SourceCrn == R.ResourceInstanceID) <;>
        simp [h2, ServiceKey.zero]

/-- C9, at a request for instance `crn:a` with only a public key name: the
first of the two matching records is selected, the private bundle is empty. -/
theorem fetchKeyHelper_selects_first_match_witness :
    ∃ pk sk,
      (fetchKeyHelper
        { Output := "o", ResourceGroup := "g", Name := "n", PublicKeyName := "pub-key",
          PrivateKeyName := "", ResourceInstanceID := "crn:a" } exampleGetKeys).result
        = Except.ok (pk, sk)
      ∧ pk.Credentials = [("user", JSON.str "a1")] ∧ sk.Credentials = [] := by
  obtain ⟨pk, sk, h, hp, hs⟩ := fetchKeyHelper_selects_first_match
    { Output := "o", ResourceGroup := "g", Name := "n", PublicKeyName := "pub-key",
      PrivateKeyName := "", ResourceInstanceID := "crn:a" } exampleGetKeys exampleKeys []
    (fun _ => rfl) (fun h => absurd rfl h)
  exact ⟨pk, sk, h, hp.trans rfl, hs.trans rfl⟩

/-- C6 fails as stated: for a request with empty `resource_instance_id` and
public key name `missing-key`, `fetchKeyHelper` issues the lookup for that name
and, the lookup failing, ends in `log.Fatal`; with the key name `pub-key`, whose
lookup succeeds, the lookup is issued as well. -/
theorem unresolved_request_is_still_looked_up :
    (fetchKeyHelper (unresolvedRequest "missing-key") exampleGetKeys).calls = ["missing-key"]
      ∧ (fetchKeyHelper (unresolvedRequest "missing-key") exampleGetKeys).result
        = Except.error "key not found"
      ∧ (fetchKeyHelper (unresolvedRequest "pub-key") exampleGetKeys).calls = ["pub-key"] :=
  ⟨rfl, rfl, rfl⟩

/-- C6 as amended: for a request with empty `resource_instance_id`,
`fetchKeyHelper` issues no lookup and yields two empty keys when both key names
are unset; it issues the lookup of each non-empty key name, public first; a
failing lookup ends the run in `log.Fatal`; and when the lookups succeed and no
returned record has an empty source CRN string, it yields two empty keys after
those lookups. -/
theorem fetchKeyHelper_unresolved (R : Credentials)
    (getKeys : String → Except String (List ServiceKey))
    (hid : R.ResourceInstanceID = "") :
    (R.PublicKeyName = "" → R.PrivateKeyName = "" →
        (fetchKeyHelper R getKeys).calls = []
          ∧ (fetchKeyHelper R getKeys).result = Except.ok (ServiceKey.zero, ServiceKey.zero))
      ∧ (∀ e, R.PublicKeyName ≠ "" → getKeys R.PublicKeyName = Except.error e →
          (fetchKeyHelper R getKeys).calls = [R.PublicKeyName]
            ∧ (fetchKeyHelper R getKeys).result = Except.error e)
      ∧ (∀ e, R.PrivateKeyName ≠ "" → getKeys R.PrivateKeyName = Except.error e →
          (R.PublicKeyName ≠ "" → ∃ recs, getKeys R.PublicKeyName = Except.ok recs) →
          (fetchKeyHelper R getKeys).calls
              = (if R.PublicKeyName = "" then [] else [R.PublicKeyName]) ++ [R.PrivateKeyName]
            ∧ (fetchKeyHelper R getKeys).result = Except.error e)
      ∧ (∀ pubRecs privRecs,
          (R.PublicKeyName ≠ "" → getKeys R.PublicKeyName = Except.ok pubRecs
            ∧ ∀ k ∈ pubRecs, k.SourceCrn ≠ "") →
          (R.PrivateKeyName ≠ "" → getKeys R.PrivateKeyName = Except.ok privRecs
            ∧ ∀ k ∈ privRecs, k.SourceCrn ≠ "") →
          (fetchKeyHelper R getKeys).calls
              = (if R.PublicKeyName = "" then [] else [R.PublicKeyName])
                ++ (if R.PrivateKeyName = "" then [] else [R.PrivateKeyName])
            ∧ (fetchKeyHelper R getKeys).result
              = Except.ok (ServiceKey.zero, ServiceKey.zero)) := by
  refine ⟨?_, ?_, ?_, ?_⟩
  · intro h1 h2
    simp [fetchKeyHelper, h1, h2]
  · intro e h1 he
    simp [fetchKeyHelper, h1, he]
  · intro e h2 he hpub
    by_cases h1 : R.PublicKeyName = ""
    · simp [fetchKeyHelper, h1, h2, he]
    · obtain ⟨recs, hrecs⟩ := hpub h1
      simp [fetchKeyHelper, h1, h2, he, hrecs]
  · intro pubRecs privRecs hpub hpriv
    by_cases h1 : R.PublicKeyName = "" <;> by_cases h2 : R.PrivateKeyName = ""
    · simp [fetchKeyHelper, h1, h2]
    · obtain ⟨hq, hno⟩ := hpriv h2
      simp [fetchKeyHelper, h1, h2, hq, hid, selectKey_no_match "" privRecs _ hno]
    · obtain ⟨hq, hno⟩ := hpub h1
      simp [fetchKeyHelper, h1, h2, hq, hid, selectKey_no_match "" pubRecs _ hno]
    · obtain ⟨hq, hno⟩ := hpub h1
      obtain ⟨hq2, hno2⟩ := hpriv h2
      simp [fetchKeyHelper, h1, h2, hq, hq2, hid, selectKey_no_match "" pubRecs _ hno,
        selectKey_no_match "" privRecs _ hno2]

/-- C6 as amended, at the unresolved request with public key name `pub-key`:
the lookup is issued and, no record having an empty source CRN string, both
keys are empty. -/
theorem fetchKeyHelper_unresolved_witness :
    (unresolvedRequest "pub-key").ResourceInstanceID = ""
      ∧ (fetchKeyHelper (unresolvedRequest "pub-key") exampleGetKeys).calls = ["pub-key"]
      ∧ (fetchKeyHelper (unresolvedRequest "pub-key") exampleGetKeys).result
        = Except.ok (ServiceKey.zero, ServiceKey.zero) := by
  have h := (fetchKeyHelper_unresolved (unresolvedRequest "pub-key") exampleGetKeys rfl).2.2.2
    exampleKeys []
    (fun _ => ⟨rfl, by decide⟩)
    (fun h2 => absurd rfl h2)
  exact ⟨rfl, h.1, h.2⟩

/-! ## Resource-group resolution -/

theorem resolveGroups_aborts (findByName : String → List ResourceGroup × Option String)
    (keys : List String) (k : String) (hk : k ∈ keys) (h0 : (findByName k).1 = [])
    (st : List (String × String) × List String) :
    ∃ e, resolveGroups findByName keys st = Except.error e := by
  induction keys generalizing st with
  | nil => cases hk
  | cons k1 ks ih =>
    obtain ⟨m, out⟩ := st
    cases hg : (findByName k1).1 with
    | nil =>
      refine ⟨"panic: runtime error: index out of range [0] with length 0", ?_⟩
      simp only [resolveGroups]
      rw [hg]
    | cons g0 gs =>
      have hne : k ≠ k1 := by
        rintro rfl
        rw [h0] at hg
        cases hg
      have hmem : k ∈ ks := by
        rcases List.mem_cons.mp hk with h | h
        · exact absurd h hne
        · exact h
      obtain ⟨e, he⟩ := ih hmem
        (mapSet m k1 g0.ID,
          match (findByName k1).2 with
          | some e => out ++ ["Error retrieving resource group " ++ k1 ++ " : " ++ e]
          | none => out)
      refine ⟨e, ?_⟩
      simp only [resolveGroups]
      rw [hg]
      exact he

/-- C4 (evaluation at the failing input): with the groups `unknown` and
`default` referenced and only `default` existing, the resolution loop of `main`
panics on `g[0]` when it reaches `unknown`, in either order of the map range,
instead of leaving the ID of `unknown` empty and resolving the other names. -/
theorem resolveGroups_panics_on_zero_results :
    collectGroups exampleData = [("unknown", ""), ("default", "")]
      ∧ (exampleFindByName "unknown").1 = []
      ∧ resolveGroups exampleFindByName ["unknown", "default"] (collectGroups exampleData, [])
        = Except.error "panic: runtime error: index out of range [0] with length 0"
      ∧ resolveGroups exampleFindByName ["default", "unknown"] (collectGroups exampleData, [])
        = Except.error "panic: runtime error: index out of range [0] with length 0" :=
  ⟨rfl, rfl, rfl, rfl⟩

/-! ## Instance resolution -/

theorem selectInstance_eq_last (region : String) (instances : List ServiceInstance)
    (id : String) :
    selectInstance region instances id
      = match (instances.filter (fun s => region == s.RegionID)).getLast? with
        | some s => s.Crn
        | none => id := by
  induction instances generalizing id with
  | nil => rfl
  | cons s rest ih =>
    simp only [selectInstance]
    rw [ih]
    by_cases hs : (region == s.RegionID) = true
    · simp only [List.filter, hs, if_true]
      cases hrest : (rest.filter (fun s => region == s.RegionID)) with
      | nil => simp
      | cons t ts =>
        rw [List.getLast?_cons_cons]
        cases hlast : (t :: ts).getLast? with
        | none => simp at hlast
        | some u => rfl
    · have hs1 : (region == s.RegionID) = false := by simpa using hs
      simp [List.filter, hs1]

theorem set_append_length (pre rest : List Credentials) (R R1 : Credentials) :
    (pre ++ R :: rest).set pre.length R1 = pre ++ R1 :: rest := by
  induction pre with
  | nil => rfl
  | cons a pre ih => simp [List.set, ih]

theorem resolved_refl (rg : List (String × String))
    (api : ServiceInstanceQuery → Except String (List ServiceInstance)) (region : String)
    (rest : List Credentials) :
    List.Forall₂ (Resolved rg api region True) rest rest := by
  induction rest with
  | nil => exact List.Forall₂.nil
  | cons R rest ih =>
    exact List.Forall₂.cons ⟨fun _ => rfl, rfl, fun _ h => absurd trivial h⟩ ih

theorem forall₂_getElem? {P : Credentials → Credentials → Prop} {l1 l2 : List Credentials}
    (h : List.Forall₂ P l1 l2) (j : Nat) (a : Credentials) (ha : l1[j]? = some a) :
    ∃ b, l2[j]? = some b ∧ P a b := by
  induction h generalizing j with
  | nil => simp at ha
  | cons hab _ ih =>
    cases j with
    | zero =>
      simp at ha
      subst ha
      exact ⟨_, by simp, hab⟩
    | succ j =>
      simp at ha
      obtain ⟨b, hb, hP⟩ := ih j ha
      exact ⟨b, by simpa using hb, hP⟩

theorem fetchInstancesFrom_spec (rg : List (String × String))
    (api : ServiceInstanceQuery → Except String (List ServiceInstance)) (region : String)
    (rest : List Credentials) (i : Nat) (st : InstState) (pre : List Credentials)
    (hst : st.credentials = pre ++ rest) (hlen : pre.length = i) :
    ∃ rest1, (fetchInstancesFrom rg api region i rest st).credentials = pre ++ rest1
      ∧ List.Forall₂
          (Resolved rg api region ((fetchInstancesFrom rg api region i rest st).fatal ≠ none))
          rest rest1 := by
  induction rest generalizing i st pre with
  | nil => exact ⟨[], by simpa [fetchInstancesFrom] using hst, List.Forall₂.nil⟩
  | cons R rest ih =>
    by_cases hR : R.ResourceInstanceID = ""
    · cases hq : api { Name := R.Name, ResourceGroupID := mapGet rg R.ResourceGroup } with
      | error e =>
        refine ⟨R :: rest, by simp [fetchInstancesFrom, hR, hq, hst], ?_⟩
        have hfat : ((fetchInstancesFrom rg api region i (R :: rest) st).fatal ≠ none) = True := by
          simp [fetchInstancesFrom, hR, hq]
        rw [hfat]
        exact resolved_refl rg api region (R :: rest)
      | ok instances =>
        have hstep : fetchInstancesFrom rg api region i (R :: rest) st
            = fetchInstancesFrom rg api region (i + 1) rest
                { credentials := st.credentials.set i
                    { R with ResourceInstanceID := selectInstance region instances "" },
                  calls := st.calls ++
                    [(i, { Name := R.Name, ResourceGroupID := mapGet rg R.ResourceGroup })],
                  stdout :=
                    if (selectInstance region instances "" == "") = true then
                      st.stdout ++ ["The resource " ++ R.Name ++
                        " doesn't exists in the given resource group: " ++ R.ResourceGroup ++ "\n"]
                    else st.stdout,
                  fatal := st.fatal } := by
          simp [fetchInstancesFrom, hR, hq]
        rw [hstep]
        obtain ⟨rest1, h1, h2⟩ := ih (i + 1)
          { credentials := st.credentials.set i
              { R with ResourceInstanceID := selectInstance region instances "" },
            calls := st.calls ++
              [(i, { Name := R.Name, ResourceGroupID := mapGet rg R.ResourceGroup })],
            stdout :=
              if (selectInstance region instances "" == "") = true then
                st.stdout ++ ["The resource " ++ R.Name ++
                  " doesn't exists in the given resource group: " ++ R.ResourceGroup ++ "\n"]
              else st.stdout,
            fatal := st.fatal }
          (pre ++ [{ R with ResourceInstanceID := selectInstance region instances "" }])
          (by simp [hst, ← hlen, set_append_length]) (by simp [hlen])
        refine ⟨{ R with ResourceInstanceID := selectInstance region instances "" } :: rest1,
          by simpa using h1, List.Forall₂.cons ⟨fun h => absurd hR h, ?_, ?_⟩ h2⟩
        · cases R
          simp at hR ⊢
        · intro _ _
          exact ⟨instances, hq, rfl⟩
    · have hstep : fetchInstancesFrom rg api region i (R :: rest) st
          = fetchInstancesFrom rg api region (i + 1) rest st := by
        simp [fetchInstancesFrom, hR]
      rw [hstep]
      obtain ⟨rest1, h1, h2⟩ := ih (i + 1) st (pre ++ [R]) (by simp [hst]) (by simp [hlen])
      exact ⟨R :: rest1, by simpa using h1,
        List.Forall₂.cons ⟨fun _ => rfl, rfl, fun h => absurd h hR⟩ h2⟩

theorem fetchInstancesFrom_calls (rg : List (String × String))
    (api : ServiceInstanceQuery → Except String (List ServiceInstance)) (region : String)
    (rest : List Credentials) (i : Nat) (st : InstState) (j : Nat) (q : ServiceInstanceQuery)
    (hmem : (j, q) ∈ (fetchInstancesFrom rg api region i rest st).calls) :
    (j, q) ∈ st.calls ∨ ∃ R, i ≤ j ∧ rest[j - i]? = some R ∧ R.ResourceInstanceID = ""
      ∧ q = { Name := R.Name, ResourceGroupID := mapGet rg R.ResourceGroup } := by
  induction rest generalizing i st with
  | nil => exact Or.inl (by simpa [fetchInstancesFrom] using hmem)
  | cons R rest ih =>
    by_cases hR : R.ResourceInstanceID = ""
    · cases hq : api { Name := R.Name, ResourceGroupID := mapGet rg R.ResourceGroup } with
      | error e =>
        simp [fetchInstancesFrom, hR, hq] at hmem
        rcases hmem with h | ⟨rfl, rfl⟩
        · exact Or.inl h
        · exact Or.inr ⟨R, le_refl _, by simp, hR, rfl⟩
      | ok instances =>
        simp only [fetchInstancesFrom, hR, bne_self_eq_false, Bool.false_eq_true, if_false,
          hq] at hmem
        rcases ih (i + 1) _ hmem with h | ⟨R2, hle, hget, hid, hq2⟩
        · simp at h
          rcases h with h | ⟨rfl, rfl⟩
          · exact Or.inl h
          · exact Or.inr ⟨R, le_refl _, by simp, hR, rfl⟩
        · refine Or.inr ⟨R2, by omega, ?_, hid, hq2⟩
          have hji : j - i = (j - (i + 1)) + 1 := by omega
          rw [hji]
          simpa using hget
    · have hstep : fetchInstancesFrom rg api region i (R :: rest) st
          = fetchInstancesFrom rg api region (i + 1) rest st := by
        simp [fetchInstancesFrom, hR]
      rw [hstep] at hmem
      rcases ih (i + 1) st hmem with h | ⟨R2, hle, hget, hid, hq2⟩
      · exact Or.inl h
      · refine Or.inr ⟨R2, by omega, ?_, hid, hq2⟩
        have hji : j - i = (j - (i + 1)) + 1 := by omega
        rw [hji]
        simpa using hget

theorem fetchInstances_spec (creds : List Credentials) (rg : List (String × String))
    (api : ServiceInstanceQuery → Except String (List ServiceInstance)) (region : String) :
    List.Forall₂
      (Resolved rg api region ((fetchInstances creds rg api region).fatal ≠ none))
      creds (fetchInstances creds rg api region).credentials := by
  obtain ⟨rest1, h1, h2⟩ := fetchInstancesFrom_spec rg api region creds 0
    { credentials := creds, calls := [], stdout := [], fatal := none } [] rfl rfl
  unfold fetchInstances
  rw [h1]
  exact h2

/-- C5 fails as stated: with two instances of the target region `us-south`
returned, `crn:first` before `crn:second`, `fetchInstances` leaves the CRN of
the second in `resource_instance_id`, not the CRN of the first. -/
theorem fetchInstances_not_first_match :
    (fetchInstances exampleRequests [("default", "id-default")] exampleListInstances
        "us-south").credentials.map (fun R => R.ResourceInstanceID)
        = ["crn:explicit", "crn:second"]
      ∧ (exampleInstances.find? (fun s => "us-south" == s.RegionID)).map (fun s => s.Crn)
        = some "crn:first" := by
  constructor
  · rfl
  · decide

/-- C5 as amended: in a run of `fetchInstances` that is not aborted, a request
with empty `resource_instance_id` whose lookup returned the list `instances`
ends with `resource_instance_id` set to the CRN of the last instance of that
list whose region identifier equals the target region, and with an empty
`resource_instance_id` when no instance of the list matches; its other fields
are unchanged. -/
theorem fetchInstances_sets_last_match (creds : List Credentials)
    (rg : List (String × String))
    (api : ServiceInstanceQuery → Except String (List ServiceInstance)) (region : String)
    (i : Nat) (R : Credentials) (instances : List ServiceInstance)
    (hi : creds[i]? = some R) (hid : R.ResourceInstanceID = "")
    (hq : api { Name := R.Name, ResourceGroupID := mapGet rg R.ResourceGroup }
      = Except.ok instances)
    (hrun : (fetchInstances creds rg api region).fatal = none) :
    (fetchInstances creds rg api region).credentials[i]?
      = some { R with ResourceInstanceID :=
          match (instances.filter (fun s => region == s.RegionID)).getLast? with
          | some s => s.Crn
          | none => "" } := by
  obtain ⟨R1, hR1, _, _, h3⟩ := forall₂_getElem? (fetchInstances_spec creds rg api region) i R hi
  obtain ⟨instances1, hq1, hEq⟩ := h3 hid (fun h => h hrun)
  rw [hq] at hq1
  cases hq1
  rw [hR1, hEq, selectInstance_eq_last]

/-- C5 as amended, at the second example request with target region
`us-south`. -/
theorem fetchInstances_sets_last_match_witness :
    (fetchInstances exampleRequests [("default", "id-default")] exampleListInstances
        "us-south").credentials[1]?
      = some { Output := "o2", ResourceGroup := "default", Name := "redis-2",
               PublicKeyName := "k", PrivateKeyName := "", ResourceInstanceID := "crn:second" } :=
  fetchInstances_sets_last_match exampleRequests [("default", "id-default")]
    exampleListInstances "us-south" 1
    { Output := "o2", ResourceGroup := "default", Name := "redis-2", PublicKeyName := "k",
      PrivateKeyName := "", ResourceInstanceID := "" }
    exampleInstances rfl rfl rfl rfl

/-- C10: for a request at index `i` whose `resource_instance_id` is non-empty,
`fetchInstances` issues no `ListInstances` call for index `i` and leaves the
entry at index `i` equal to the request in every field, whatever the other
requests, the resource-group mapping, the lookup results and the region, and
whether or not the run is aborted; the list keeps its length and every index
keeps its request, at most the `resource_instance_id` field being changed. -/
theorem fetchInstances_skips_resolved (creds : List Credentials)
    (rg : List (String × String))
    (api : ServiceInstanceQuery → Except String (List ServiceInstance)) (region : String)
    (i : Nat) (R : Credentials)
    (hi : creds[i]? = some R) (hne : R.ResourceInstanceID ≠ "") :
    (fetchInstances creds rg api region).credentials[i]? = some R
      ∧ (∀ q, (i, q) ∉ (fetchInstances creds rg api region).calls)
      ∧ (fetchInstances creds rg api region).credentials.length = creds.length
      ∧ ∀ (j : Nat) (Rj : Credentials), creds[j]? = some Rj →
          ∃ R1 : Credentials, (fetchInstances creds rg api region).credentials[j]? = some R1
            ∧ { R1 with ResourceInstanceID := Rj.ResourceInstanceID } = Rj := by
  have hspec := fetchInstances_spec creds rg api region
  refine ⟨?_, ?_, hspec.length_eq.symm, ?_⟩
  · obtain ⟨R1, hR1, h1, _, _⟩ := forall₂_getElem? hspec i R hi
    rw [hR1, h1 hne]
  · intro q hmem
    rcases fetchInstancesFrom_calls rg api region creds 0
      { credentials := creds, calls := [], stdout := [], fatal := none } i q hmem with h | h
    · simp at h
    · obtain ⟨R2, _, hget, hid, _⟩ := h
      simp only [Nat.sub_zero] at hget
      rw [hi] at hget
      cases hget
      exact hne hid
  · intro j Rj hj
    obtain ⟨R1, hR1, _, h2, _⟩ := forall₂_getElem? hspec j Rj hj
    exact ⟨R1, hR1, h2⟩

/-- C10, at the first example request, which carries `crn:explicit`. -/
theorem fetchInstances_skips_resolved_witness :
    (fetchInstances exampleRequests [("default", "id-default")] exampleListInstances
        "us-south").credentials[0]?
        = some { Output := "o1", ResourceGroup := "default", Name := "redis-1",
                 PublicKeyName := "k", PrivateKeyName := "",
                 ResourceInstanceID := "crn:explicit" }
      ∧ (fetchInstances exampleRequests [("default", "id-default")] exampleListInstances
          "us-south").credentials.length = 2 := by
  have h := fetchInstances_skips_resolved exampleRequests [("default", "id-default")]
    exampleListInstances "us-south" 0
    { Output := "o1", ResourceGroup := "default", Name := "redis-1", PublicKeyName := "k",
      PrivateKeyName := "", ResourceInstanceID := "crn:explicit" }
    rfl (by decide)
  exact ⟨h.1, h.2.2.1⟩

end SecretsManager
